import Mathlib

/-!
# libssh2.js bindings: a shallow embedding

Two C files export thin bindings over the libssh2 protocol engine:

* `src/packages/libssh2/src/libssh2-bindings.c`  (namespace `Generic`)
* `src/ssh2_bindings.c`                          (namespace `WebSocket`)

The engine (libssh2) and the JavaScript transport hooks (`Module.customSend`,
`Module.customRecv`) are external collaborators.  They are modelled as
arbitrary functions that may depend on everything the bindings asked of them
so far, and every call the bindings make is appended to a trace, so that the
order and number of engine calls can be stated.

C types on the Emscripten (wasm32) target: `int`, `size_t`, `ssize_t` and
pointers are 32 bits wide.  Pointers and `size_t` are `Nat`, `int` is `Int`;
a conversion between different C types is written `toInt32`.
-/

set_option linter.unusedVariables false

namespace Libssh2js

/-- A C pointer; `NULL` is `0`. -/
abbrev Ptr := Nat

/-- The null pointer. -/
def NULL : Ptr := 0

/-- Conversion of a value to the 32-bit C `int` (two's complement wrap). -/
def toInt32 (x : Int) : Int := (x + 2 ^ 31) % 2 ^ 32 - 2 ^ 31

/-- Constant of `libssh2.h`: callback slot of the send function. -/
def LIBSSH2_CALLBACK_SEND : Int := 5

/-- Constant of `libssh2.h`: callback slot of the receive function. -/
def LIBSSH2_CALLBACK_RECV : Int := 6

/-- Constant of `libssh2.h`: the engine's would-block code. -/
def LIBSSH2_ERROR_EAGAIN : Int := -37

/-- The two bridge functions whose addresses the bindings hand to the engine. -/
inductive Callback where
  | custom_send
  | custom_recv
  deriving DecidableEq, Repr

/-- One call of the bindings into the engine, with its arguments. -/
inductive Call where
  | session_init
  | session_callback_set (session : Ptr) (cbtype : Int) (cb : Callback)
  | session_callback_set2 (session : Ptr) (cbtype : Int) (cb : Callback)
  | session_handshake (session : Ptr) (socket : Int)
  | session_disconnect (session : Ptr) (description : String)
  | session_free (session : Ptr)
  | userauth_password (session : Ptr) (username : Ptr) (password : Ptr)
  | channel_read (channel : Ptr) (buf : Ptr) (buflen : Nat)
  | channel_write (channel : Ptr) (buf : Ptr) (buflen : Nat)
  | channel_close (channel : Ptr)
  | channel_free (channel : Ptr)
  | channel_get_exit_signal (channel : Ptr)
  | channel_forward_listen_ex (session : Ptr) (host : Ptr) (port : Int)
      (queue_maxsize : Int)
  deriving DecidableEq, Repr

/-- What `libssh2_channel_get_exit_signal` hands back: its `int` result and
the values it stored through the six out-pointers. -/
structure ExitSignalOut where
  result : Int
  exitsignal : Ptr
  exitsignal_len : Nat
  errmsg : Ptr
  errmsg_len : Nat
  langtag : Ptr
  langtag_len : Nat
  deriving DecidableEq, Repr

/-- What `libssh2_channel_forward_listen_ex` hands back: the listener and the
port stored through the `bound_port` out-pointer. -/
structure ListenOut where
  listener : Ptr
  bound_port : Int
  deriving DecidableEq, Repr

/-- The protocol engine.  Each answer may depend on the calls made so far
(first argument) and on the arguments of the call. -/
structure Engine where
  session_init : List Call → Ptr
  session_callback_set : List Call → Ptr → Int → Callback → Ptr
  session_callback_set2 : List Call → Ptr → Int → Callback → Ptr
  session_handshake : List Call → Ptr → Int → Int
  session_disconnect : List Call → Ptr → String → Int
  session_free : List Call → Ptr → Int
  userauth_password : List Call → Ptr → Ptr → Ptr → Int
  channel_read : List Call → Ptr → Ptr → Nat → Int
  channel_write : List Call → Ptr → Ptr → Nat → Int
  channel_close : List Call → Ptr → Int
  channel_free : List Call → Ptr → Int
  channel_get_exit_signal : List Call → Ptr → ExitSignalOut
  channel_forward_listen_ex : List Call → Ptr → Ptr → Int → Int → ListenOut

/-- One invocation of a JavaScript transport hook, with the argument list it
was given. -/
inductive HookCall where
  | customSend (args : List Int)
  | customRecv (args : List Int)
  deriving DecidableEq, Repr

/-- The Emscripten `Module` object as far as the bridge reads it: each hook is
either absent (`none`, a falsy property) or a function of the invocations so
far and of the argument list. -/
structure Module where
  customSend : Option (List HookCall → List Int → Int)
  customRecv : Option (List HookCall → List Int → Int)

namespace Generic

/-- `custom_send` of `libssh2-bindings.c`: the hook is called with
`(int)buffer, (int)length`; calling an absent hook raises a JavaScript
error, so no value is returned (`none`). -/
def custom_send (M : Module) (socket : Int) (buffer : Ptr) (length : Nat)
    (flags : Int) (abstract : Ptr) (hs : List HookCall) :
    Option Int × List HookCall :=
  let a0 := toInt32 buffer
  let a1 := toInt32 length
  match M.customSend with
  | some f => (some (toInt32 (f hs [a0, a1])), hs ++ [HookCall.customSend [a0, a1]])
  | none => (none, hs)

/-- `custom_recv` of `libssh2-bindings.c`. -/
def custom_recv (M : Module) (socket : Int) (buffer : Ptr) (length : Nat)
    (flags : Int) (abstract : Ptr) (hs : List HookCall) :
    Option Int × List HookCall :=
  let a0 := toInt32 buffer
  let a1 := toInt32 length
  match M.customRecv with
  | some f => (some (toInt32 (f hs [a0, a1])), hs ++ [HookCall.customRecv [a0, a1]])
  | none => (none, hs)

/-- `ssh2_session_free` of `libssh2-bindings.c`. -/
def ssh2_session_free (E : Engine) (session : Ptr) (tr : List Call) :
    Unit × List Call :=
  if session ≠ NULL then
    let c1 := Call.session_disconnect session "Normal shutdown"
    let _r1 := E.session_disconnect tr session "Normal shutdown"
    let tr1 := tr ++ [c1]
    let _r2 := E.session_free tr1 session
    ((), tr1 ++ [Call.session_free session])
  else
    ((), tr)

/-- `ssh2_session_callback_set_custom` of `libssh2-bindings.c`: the engine's
answer (the callback stored before) is discarded. -/
def ssh2_session_callback_set_custom (E : Engine) (session : Ptr) (cbtype : Int)
    (tr : List Call) : Unit × List Call :=
  if cbtype = LIBSSH2_CALLBACK_SEND then
    let _o := E.session_callback_set2 tr session cbtype Callback.custom_send
    ((), tr ++ [Call.session_callback_set2 session cbtype Callback.custom_send])
  else if cbtype = LIBSSH2_CALLBACK_RECV then
    let _o := E.session_callback_set2 tr session cbtype Callback.custom_recv
    ((), tr ++ [Call.session_callback_set2 session cbtype Callback.custom_recv])
  else
    ((), tr)

/-- `ssh2_session_handshake_custom` of `libssh2-bindings.c`: the socket
descriptor handed to the engine is the constant `1`. -/
def ssh2_session_handshake_custom (E : Engine) (session : Ptr) (tr : List Call) :
    Int × List Call :=
  (E.session_handshake tr session 1, tr ++ [Call.session_handshake session 1])

/-- `ssh2_userauth_password` of `libssh2-bindings.c`. -/
def ssh2_userauth_password (E : Engine) (session : Ptr) (username : Ptr)
    (password : Ptr) (tr : List Call) : Int × List Call :=
  (E.userauth_password tr session username password,
    tr ++ [Call.userauth_password session username password])

/-- `ssh2_channel_free` of `libssh2-bindings.c`. -/
def ssh2_channel_free (E : Engine) (channel : Ptr) (tr : List Call) :
    Unit × List Call :=
  if channel ≠ NULL then
    let _r := E.channel_free tr channel
    ((), tr ++ [Call.channel_free channel])
  else
    ((), tr)

/-- `ssh2_channel_close` of `libssh2-bindings.c`. -/
def ssh2_channel_close (E : Engine) (channel : Ptr) (tr : List Call) :
    Int × List Call :=
  (E.channel_close tr channel, tr ++ [Call.channel_close channel])

/-- `ssh2_channel_read` of `libssh2-bindings.c`: the engine's `ssize_t` is
returned as `int`. -/
def ssh2_channel_read (E : Engine) (channel : Ptr) (buf : Ptr) (buflen : Nat)
    (tr : List Call) : Int × List Call :=
  (toInt32 (E.channel_read tr channel buf buflen),
    tr ++ [Call.channel_read channel buf buflen])

/-- `ssh2_channel_write` of `libssh2-bindings.c`: the engine's `ssize_t` is
returned as `int`. -/
def ssh2_channel_write (E : Engine) (channel : Ptr) (buf : Ptr) (buflen : Nat)
    (tr : List Call) : Int × List Call :=
  (toInt32 (E.channel_write tr channel buf buflen),
    tr ++ [Call.channel_write channel buf buflen])

/-- `ssh2_channel_get_exit_signal` of `libssh2-bindings.c`: of the values the
engine stores, only `exitsignal` is passed on, and only when the engine's
result is `0`. -/
def ssh2_channel_get_exit_signal (E : Engine) (channel : Ptr) (tr : List Call) :
    Ptr × List Call :=
  let out := E.channel_get_exit_signal tr channel
  let result := out.result
  (if result = 0 then out.exitsignal else NULL,
    tr ++ [Call.channel_get_exit_signal channel])

/-- `ssh2_channel_forward_listen` of `libssh2-bindings.c`: the engine stores
the bound port in the local `bound_port`; the listener is returned. -/
def ssh2_channel_forward_listen (E : Engine) (session : Ptr) (port : Int)
    (tr : List Call) : Ptr × List Call :=
  let out := E.channel_forward_listen_ex tr session NULL port 16
  let _bound_port := out.bound_port
  (out.listener, tr ++ [Call.channel_forward_listen_ex session NULL port 16])

end Generic

namespace WebSocket

/-- `custom_send` of `ssh2_bindings.c`: the hook, when present, is called
with `(int)socket, (int)buffer, (int)length`; otherwise `(int)length` is
returned ("assume all bytes sent"). -/
def custom_send (M : Module) (socket : Int) (buffer : Ptr) (length : Nat)
    (flags : Int) (abstract : Ptr) (hs : List HookCall) :
    Option Int × List HookCall :=
  let a0 := socket
  let a1 := toInt32 buffer
  let a2 := toInt32 length
  match M.customSend with
  | some f =>
    (some (toInt32 (f hs [a0, a1, a2])), hs ++ [HookCall.customSend [a0, a1, a2]])
  | none => (some a2, hs)

/-- `custom_recv` of `ssh2_bindings.c`: the hook, when present, is called
with `(int)socket, (int)buffer, (int)length`; otherwise `0` is returned
("no bytes received"). -/
def custom_recv (M : Module) (socket : Int) (buffer : Ptr) (length : Nat)
    (flags : Int) (abstract : Ptr) (hs : List HookCall) :
    Option Int × List HookCall :=
  let a0 := socket
  let a1 := toInt32 buffer
  let a2 := toInt32 length
  match M.customRecv with
  | some f =>
    (some (toInt32 (f hs [a0, a1, a2])), hs ++ [HookCall.customRecv [a0, a1, a2]])
  | none => (some 0, hs)

/-- `ssh2_session_init_custom` of `ssh2_bindings.c`. -/
def ssh2_session_init_custom (E : Engine) (tr : List Call) : Ptr × List Call :=
  let session := E.session_init tr
  let tr1 := tr ++ [Call.session_init]
  if session ≠ NULL then
    let c1 := Call.session_callback_set session LIBSSH2_CALLBACK_SEND Callback.custom_send
    let _o1 := E.session_callback_set tr1 session LIBSSH2_CALLBACK_SEND Callback.custom_send
    let tr2 := tr1 ++ [c1]
    let c2 := Call.session_callback_set session LIBSSH2_CALLBACK_RECV Callback.custom_recv
    let _o2 := E.session_callback_set tr2 session LIBSSH2_CALLBACK_RECV Callback.custom_recv
    (session, tr2 ++ [c2])
  else
    (session, tr1)

/-- `ssh2_session_handshake_custom` of `ssh2_bindings.c`. -/
def ssh2_session_handshake_custom (E : Engine) (session : Ptr) (tr : List Call) :
    Int × List Call :=
  (E.session_handshake tr session 1, tr ++ [Call.session_handshake session 1])

/-- `ssh2_channel_close` of `ssh2_bindings.c`. -/
def ssh2_channel_close (E : Engine) (channel : Ptr) (tr : List Call) :
    Int × List Call :=
  (E.channel_close tr channel, tr ++ [Call.channel_close channel])

/-- `ssh2_channel_free` of `ssh2_bindings.c`. -/
def ssh2_channel_free (E : Engine) (channel : Ptr) (tr : List Call) :
    Unit × List Call :=
  if channel ≠ NULL then
    let _r := E.channel_free tr channel
    ((), tr ++ [Call.channel_free channel])
  else
    ((), tr)

/-- `ssh2_session_free` of `ssh2_bindings.c`. -/
def ssh2_session_free (E : Engine) (session : Ptr) (tr : List Call) :
    Unit × List Call :=
  if session ≠ NULL then
    let c1 := Call.session_disconnect session "Normal shutdown"
    let _r1 := E.session_disconnect tr session "Normal shutdown"
    let tr1 := tr ++ [c1]
    let _r2 := E.session_free tr1 session
    ((), tr1 ++ [Call.session_free session])
  else
    ((), tr)

end WebSocket

/-- An engine whose status-returning calls all answer `code`; it hands out
session and listener `1` and reports the requested port as bound. -/
def engineStatus (code : Int) : Engine where
  session_init := fun _ => 1
  session_callback_set := fun _ _ _ _ => 0
  session_callback_set2 := fun _ _ _ _ => 0
  session_handshake := fun _ _ _ => code
  session_disconnect := fun _ _ _ => code
  session_free := fun _ _ => code
  userauth_password := fun _ _ _ _ => code
  channel_read := fun _ _ _ _ => code
  channel_write := fun _ _ _ _ => code
  channel_close := fun _ _ => code
  channel_free := fun _ _ => code
  channel_get_exit_signal := fun _ _ => ⟨code, 64, 4, 0, 0, 0, 0⟩
  channel_forward_listen_ex := fun _ _ _ p _ => ⟨1, p⟩

/-- An engine in which every call succeeds. -/
def engineOk : Engine := engineStatus 0

/-- An engine that cannot allocate a session: `session_init` answers `NULL`. -/
def engineNoSession : Engine where
  session_init := fun _ => NULL
  session_callback_set := fun _ _ _ _ => 0
  session_callback_set2 := fun _ _ _ _ => 0
  session_handshake := fun _ _ _ => 0
  session_disconnect := fun _ _ _ => 0
  session_free := fun _ _ => 0
  userauth_password := fun _ _ _ _ => 0
  channel_read := fun _ _ _ _ => 0
  channel_write := fun _ _ _ _ => 0
  channel_close := fun _ _ => 0
  channel_free := fun _ _ => 0
  channel_get_exit_signal := fun _ _ => ⟨0, 64, 4, 0, 0, 0, 0⟩
  channel_forward_listen_ex := fun _ _ _ p _ => ⟨1, p⟩

/-- An engine whose listen call succeeds with listener `1` and reports `b` as
the bound port. -/
def engineListen (b : Int) : Engine where
  session_init := fun _ => 1
  session_callback_set := fun _ _ _ _ => 0
  session_callback_set2 := fun _ _ _ _ => 0
  session_handshake := fun _ _ _ => 0
  session_disconnect := fun _ _ _ => 0
  session_free := fun _ _ => 0
  userauth_password := fun _ _ _ _ => 0
  channel_read := fun _ _ _ _ => 0
  channel_write := fun _ _ _ _ => 0
  channel_close := fun _ _ => 0
  channel_free := fun _ _ => 0
  channel_get_exit_signal := fun _ _ => ⟨0, 64, 4, 0, 0, 0, 0⟩
  channel_forward_listen_ex := fun _ _ _ _ _ => ⟨1, b⟩

/-- An engine whose exit-signal call succeeds (`0`) for a channel that was
not ended by a signal: the `exitsignal` it stores is `NULL`. -/
def engineNoSignal : Engine :=
  { engineOk with channel_get_exit_signal := fun _ _ => ⟨0, NULL, 0, 0, 0, 0, 0⟩ }

/-- A `Module` with neither hook installed. -/
def noHooks : Module := ⟨none, none⟩

/-- A `Module` whose send hook accepts three bytes and whose receive hook
reports would-block (`-11`). -/
def hooksInstalled : Module := ⟨some (fun _ _ => 3), some (fun _ _ => -11)⟩

/-- The host calling `ssh2_channel_free(channel)` `k` times in a row. -/
def Generic.freeTimes (E : Engine) (channel : Ptr) : Nat → List Call → List Call
  | 0, tr => tr
  | k + 1, tr => Generic.freeTimes E channel k (Generic.ssh2_channel_free E channel tr).2

/-- The effect of one engine call on what slot `cbtype` of `session` was last
asked to hold: a callback-set call for that session and slot replaces it,
every other call leaves it. -/
def slotStep (session : Ptr) (cbtype : Int) (cur : Option Callback) :
    Call → Option Callback
  | Call.session_callback_set s t cb => if s = session ∧ t = cbtype then some cb else cur
  | Call.session_callback_set2 s t cb => if s = session ∧ t = cbtype then some cb else cur
  | _ => cur

/-- The callback that the calls of a trace last asked the engine to store in
slot `cbtype` of `session`; `none` when the trace never set that slot. -/
def callbackSlot (session : Ptr) (cbtype : Int) (tr : List Call) : Option Callback :=
  tr.foldl (slotStep session cbtype) none

/-- A value that fits the 32-bit C `int` is unchanged by the conversion. -/
theorem toInt32_eq_self (x : Int) (h1 : -2 ^ 31 ≤ x) (h2 : x < 2 ^ 31) :
    toInt32 x = x := by
  unfold toInt32
  omega

/-- C1: for a non-null session, whatever the engine answers, both variants of
`ssh2_session_free` issue exactly `session_disconnect(session, "Normal
shutdown")` and then `session_free(session)`, once each; for the null
session they issue no engine call. -/
theorem session_free_disconnects_then_frees (E : Engine) (session : Ptr)
    (tr : List Call) :
    (session ≠ NULL →
      (Generic.ssh2_session_free E session tr).2
          = tr ++ [Call.session_disconnect session "Normal shutdown",
                   Call.session_free session]
      ∧ (WebSocket.ssh2_session_free E session tr).2
          = tr ++ [Call.session_disconnect session "Normal shutdown",
                   Call.session_free session])
    ∧ (session = NULL →
      (Generic.ssh2_session_free E session tr).2 = tr
      ∧ (WebSocket.ssh2_session_free E session tr).2 = tr) := by
  constructor
  · intro h
    simp [Generic.ssh2_session_free, WebSocket.ssh2_session_free, h]
  · intro h
    simp [Generic.ssh2_session_free, WebSocket.ssh2_session_free, h]

/-- C1 at concrete inputs: session `7`, and the null session, on a fresh
trace. -/
theorem session_free_disconnects_then_frees_witness :
    ((Generic.ssh2_session_free engineOk 7 []).2
        = [] ++ [Call.session_disconnect 7 "Normal shutdown", Call.session_free 7]
      ∧ (WebSocket.ssh2_session_free engineOk 7 []).2
        = [] ++ [Call.session_disconnect 7 "Normal shutdown", Call.session_free 7])
    ∧ ((Generic.ssh2_session_free engineOk NULL []).2 = []
      ∧ (WebSocket.ssh2_session_free engineOk NULL []).2 = []) :=
  ⟨(session_free_disconnects_then_frees engineOk 7 []).1 (by decide),
   (session_free_disconnects_then_frees engineOk NULL []).2 rfl⟩

/-- C2, the code at the failing input: a listen on port `0` for which the
engine reports bound port `40123`, and one for which it reports `40124`, hand
the caller the same result (listener `1`): `ssh2_channel_forward_listen`
stores the bound port in a local and drops it. -/
theorem forward_listen_drops_bound_port :
    ((engineListen 40123).channel_forward_listen_ex [] 7 NULL 0 16).bound_port = 40123
    ∧ ((engineListen 40124).channel_forward_listen_ex [] 7 NULL 0 16).bound_port = 40124
    ∧ Generic.ssh2_channel_forward_listen (engineListen 40123) 7 0 []
        = (1, [Call.channel_forward_listen_ex 7 NULL 0 16])
    ∧ Generic.ssh2_channel_forward_listen (engineListen 40124) 7 0 []
        = (1, [Call.channel_forward_listen_ex 7 NULL 0 16]) := by
  refine ⟨rfl, rfl, rfl, rfl⟩

/-- C3 refuted: with no receive hook installed the WebSocket variant of
`custom_recv` returns `0`, not a negative would-block value. -/
theorem custom_recv_no_hook_returns_zero :
    (WebSocket.custom_recv noHooks 1 1024 16 0 0 []).1 = some 0
    ∧ ¬ ∃ r : Int, (WebSocket.custom_recv noHooks 1 1024 16 0 0 []).1 = some r ∧ r < 0 := by
  have h : (WebSocket.custom_recv noHooks 1 1024 16 0 0 []).1 = some 0 := rfl
  refine ⟨h, ?_⟩
  rintro ⟨r, hr, hneg⟩
  rw [h] at hr
  cases hr
  exact absurd hneg (by decide)

/-- C3 as amended: `custom_recv` returns the answer of the installed receive
hook converted to `int` (the answer itself when it fits an `int`), after
invoking the hook once, with `socket, buffer, length` in the WebSocket variant
and `buffer, length` in the generic one; with no hook installed the WebSocket
variant returns `0` and the generic variant returns no value, and no hook is
invoked. -/
theorem custom_recv_returns_hook_answer (M : Module) (socket : Int) (buffer : Ptr)
    (length : Nat) (flags : Int) (abstract : Ptr) (hs : List HookCall) :
    (∀ f, M.customRecv = some f →
      WebSocket.custom_recv M socket buffer length flags abstract hs
        = (some (toInt32 (f hs [socket, toInt32 buffer, toInt32 length])),
            hs ++ [HookCall.customRecv [socket, toInt32 buffer, toInt32 length]])
      ∧ Generic.custom_recv M socket buffer length flags abstract hs
        = (some (toInt32 (f hs [toInt32 buffer, toInt32 length])),
            hs ++ [HookCall.customRecv [toInt32 buffer, toInt32 length]])
      ∧ (∀ a : Int, -2 ^ 31 ≤ a → a < 2 ^ 31 →
          (f hs [socket, toInt32 buffer, toInt32 length] = a →
            (WebSocket.custom_recv M socket buffer length flags abstract hs).1 = some a)
          ∧ (f hs [toInt32 buffer, toInt32 length] = a →
            (Generic.custom_recv M socket buffer length flags abstract hs).1 = some a)))
    ∧ (M.customRecv = none →
      WebSocket.custom_recv M socket buffer length flags abstract hs = (some 0, hs)
      ∧ Generic.custom_recv M socket buffer length flags abstract hs = (none, hs)) := by
  constructor
  · intro f hf
    refine ⟨?_, ?_, ?_⟩
    · simp [WebSocket.custom_recv, hf]
    · simp [Generic.custom_recv, hf]
    · intro a h1 h2
      constructor
      · intro ha
        simp [WebSocket.custom_recv, hf, ha, toInt32_eq_self a h1 h2]
      · intro ha
        simp [Generic.custom_recv, hf, ha, toInt32_eq_self a h1 h2]
  · intro hn
    simp [WebSocket.custom_recv, Generic.custom_recv, hn]

/-- C3 as amended, at concrete inputs: a hook that answers `-11`, and no
hook. -/
theorem custom_recv_returns_hook_answer_witness :
    ((WebSocket.custom_recv hooksInstalled 1 1024 16 0 0 []).1 = some (-11)
      ∧ (Generic.custom_recv hooksInstalled 1 1024 16 0 0 []).1 = some (-11))
    ∧ (WebSocket.custom_recv noHooks 1 1024 16 0 0 [] = (some 0, [])
      ∧ Generic.custom_recv noHooks 1 1024 16 0 0 [] = (none, [])) :=
  ⟨⟨(((custom_recv_returns_hook_answer hooksInstalled 1 1024 16 0 0 []).1
        (fun _ _ => -11) rfl).2.2 (-11) (by decide) (by decide)).1 rfl,
    (((custom_recv_returns_hook_answer hooksInstalled 1 1024 16 0 0 []).1
        (fun _ _ => -11) rfl).2.2 (-11) (by decide) (by decide)).2 rfl⟩,
   (custom_recv_returns_hook_answer noHooks 1 1024 16 0 0 []).2 rfl⟩

/-- C4 refuted: with no send hook installed the WebSocket variant of
`custom_send` invokes no hook and still reports all `16` bytes as sent. -/
theorem custom_send_no_hook_reports_all_sent :
    WebSocket.custom_send noHooks 1 1024 16 0 0 [] = (some 16, [])
    ∧ ¬ ∃ r : Int, (WebSocket.custom_send noHooks 1 1024 16 0 0 []).1 = some r ∧ r < 0 := by
  have h : WebSocket.custom_send noHooks 1 1024 16 0 0 [] = (some 16, []) := by
    simp [WebSocket.custom_send, noHooks, toInt32]
  refine ⟨h, ?_⟩
  rintro ⟨r, hr, hneg⟩
  rw [h] at hr
  cases hr
  exact absurd hneg (by decide)

/-- C4 as amended: with a send hook installed `custom_send` invokes it once
and returns its answer converted to `int` (the answer itself, hence never
more than the hook accepted, when it fits an `int`); with no hook installed
the WebSocket variant returns `(int)length` without invoking anything, and the
generic variant returns no value. -/
theorem custom_send_returns_hook_answer (M : Module) (socket : Int) (buffer : Ptr)
    (length : Nat) (flags : Int) (abstract : Ptr) (hs : List HookCall) :
    (∀ f, M.customSend = some f →
      WebSocket.custom_send M socket buffer length flags abstract hs
        = (some (toInt32 (f hs [socket, toInt32 buffer, toInt32 length])),
            hs ++ [HookCall.customSend [socket, toInt32 buffer, toInt32 length]])
      ∧ Generic.custom_send M socket buffer length flags abstract hs
        = (some (toInt32 (f hs [toInt32 buffer, toInt32 length])),
            hs ++ [HookCall.customSend [toInt32 buffer, toInt32 length]])
      ∧ (∀ a : Int, -2 ^ 31 ≤ a → a < 2 ^ 31 →
          (f hs [socket, toInt32 buffer, toInt32 length] = a →
            (WebSocket.custom_send M socket buffer length flags abstract hs).1 = some a)
          ∧ (f hs [toInt32 buffer, toInt32 length] = a →
            (Generic.custom_send M socket buffer length flags abstract hs).1 = some a)))
    ∧ (M.customSend = none →
      WebSocket.custom_send M socket buffer length flags abstract hs
        = (some (toInt32 length), hs)
      ∧ Generic.custom_send M socket buffer length flags abstract hs = (none, hs)) := by
  constructor
  · intro f hf
    refine ⟨?_, ?_, ?_⟩
    · simp [WebSocket.custom_send, hf]
    · simp [Generic.custom_send, hf]
    · intro a h1 h2
      constructor
      · intro ha
        simp [WebSocket.custom_send, hf, ha, toInt32_eq_self a h1 h2]
      · intro ha
        simp [Generic.custom_send, hf, ha, toInt32_eq_self a h1 h2]
  · intro hn
    simp [WebSocket.custom_send, Generic.custom_send, hn]

/-- C4 as amended, at concrete inputs: a hook that accepts `3` of `16` bytes,
and no hook. -/
theorem custom_send_returns_hook_answer_witness :
    ((WebSocket.custom_send hooksInstalled 1 1024 16 0 0 []).1 = some 3
      ∧ (Generic.custom_send hooksInstalled 1 1024 16 0 0 []).1 = some 3)
    ∧ (WebSocket.custom_send noHooks 1 1024 16 0 0 [] = (some (toInt32 (16 : Nat)), [])
      ∧ Generic.custom_send noHooks 1 1024 16 0 0 [] = (none, [])) :=
  ⟨⟨(((custom_send_returns_hook_answer hooksInstalled 1 1024 16 0 0 []).1
        (fun _ _ => 3) rfl).2.2 3 (by decide) (by decide)).1 rfl,
    (((custom_send_returns_hook_answer hooksInstalled 1 1024 16 0 0 []).1
        (fun _ _ => 3) rfl).2.2 3 (by decide) (by decide)).2 rfl⟩,
   (custom_send_returns_hook_answer noHooks 1 1024 16 0 0 []).2 rfl⟩

/-- C5 refuted: on channel `7` (resp. session `7`) an engine whose calls
answer the failure code `-7` and one whose calls answer `0` leave the
caller of `ssh2_channel_free` (resp. `ssh2_session_free`) with the same
(void) result, after the same engine calls. -/
theorem release_hides_engine_failure :
    ((engineStatus (-7)).channel_free [] 7 < 0 ∧ engineOk.channel_free [] 7 = 0)
    ∧ ((engineStatus (-7)).session_disconnect [] 7 "Normal shutdown" < 0
        ∧ engineOk.session_disconnect [] 7 "Normal shutdown" = 0)
    ∧ Generic.ssh2_channel_free (engineStatus (-7)) 7 []
        = Generic.ssh2_channel_free engineOk 7 []
    ∧ WebSocket.ssh2_channel_free (engineStatus (-7)) 7 []
        = WebSocket.ssh2_channel_free engineOk 7 []
    ∧ Generic.ssh2_session_free (engineStatus (-7)) 7 []
        = Generic.ssh2_session_free engineOk 7 [] := by
  refine ⟨⟨by decide, rfl⟩, ⟨by decide, rfl⟩, rfl, rfl, rfl⟩

/-- C5 as amended: the release operations return nothing, so for every
channel (resp. session) and every two engines, whatever their free and
disconnect calls answer, `ssh2_channel_free` and `ssh2_session_free` hand
the caller the same (void) result and make the same engine calls. -/
theorem release_result_independent_of_engine (E1 E2 : Engine) (handle : Ptr)
    (tr : List Call) :
    Generic.ssh2_channel_free E1 handle tr = Generic.ssh2_channel_free E2 handle tr
    ∧ WebSocket.ssh2_channel_free E1 handle tr = WebSocket.ssh2_channel_free E2 handle tr
    ∧ Generic.ssh2_session_free E1 handle tr = Generic.ssh2_session_free E2 handle tr
    ∧ WebSocket.ssh2_session_free E1 handle tr
        = WebSocket.ssh2_session_free E2 handle tr := by
  refine ⟨rfl, rfl, rfl, rfl⟩

/-- C6 refuted: on channel `7`, an engine that answers would-block
(`LIBSSH2_ERROR_EAGAIN`) and one that answers the failure code `-7` make
`ssh2_channel_get_exit_signal` return the same value, `NULL`. -/
theorem exit_signal_conflates_would_block :
    ((engineStatus LIBSSH2_ERROR_EAGAIN).channel_get_exit_signal [] 7).result
        = LIBSSH2_ERROR_EAGAIN
    ∧ ((engineStatus (-7)).channel_get_exit_signal [] 7).result = -7
    ∧ LIBSSH2_ERROR_EAGAIN ≠ -7
    ∧ (Generic.ssh2_channel_get_exit_signal (engineStatus LIBSSH2_ERROR_EAGAIN) 7 []).1
        = NULL
    ∧ (Generic.ssh2_channel_get_exit_signal (engineStatus (-7)) 7 []).1 = NULL := by
  refine ⟨rfl, rfl, by decide, ?_, ?_⟩
  · simp [Generic.ssh2_channel_get_exit_signal, engineStatus, LIBSSH2_ERROR_EAGAIN]
  · simp [Generic.ssh2_channel_get_exit_signal, engineStatus]

/-- C6 as amended: `ssh2_channel_get_exit_signal` returns `NULL` for every
non-zero engine result, the would-block code `LIBSSH2_ERROR_EAGAIN` included,
and the `exitsignal` pointer stored by the engine when the engine's result is
`0`, which is `NULL` as well when the engine stored `NULL`. -/
theorem exit_signal_null_unless_success (E : Engine) (channel : Ptr) (tr : List Call) :
    ((E.channel_get_exit_signal tr channel).result ≠ 0 →
      (Generic.ssh2_channel_get_exit_signal E channel tr).1 = NULL)
    ∧ ((E.channel_get_exit_signal tr channel).result = LIBSSH2_ERROR_EAGAIN →
      (Generic.ssh2_channel_get_exit_signal E channel tr).1 = NULL)
    ∧ ((E.channel_get_exit_signal tr channel).result = 0 →
      (Generic.ssh2_channel_get_exit_signal E channel tr).1
        = (E.channel_get_exit_signal tr channel).exitsignal)
    ∧ ((E.channel_get_exit_signal tr channel).result = 0 →
      (E.channel_get_exit_signal tr channel).exitsignal = NULL →
      (Generic.ssh2_channel_get_exit_signal E channel tr).1 = NULL) := by
  refine ⟨?_, ?_, ?_, ?_⟩
  · intro h
    simp [Generic.ssh2_channel_get_exit_signal, h]
  · intro h
    simp [Generic.ssh2_channel_get_exit_signal, h, LIBSSH2_ERROR_EAGAIN]
  · intro h
    simp [Generic.ssh2_channel_get_exit_signal, h]
  · intro h hn
    simp [Generic.ssh2_channel_get_exit_signal, h, hn]

/-- C6 as amended, at concrete inputs: an engine answering the failure code
`-7`, one answering would-block, one answering `0` with `exitsignal = 64`,
and one answering `0` with `exitsignal = NULL`. -/
theorem exit_signal_null_unless_success_witness :
    (Generic.ssh2_channel_get_exit_signal (engineStatus (-7)) 7 []).1 = NULL
    ∧ (Generic.ssh2_channel_get_exit_signal (engineStatus LIBSSH2_ERROR_EAGAIN) 7 []).1
        = NULL
    ∧ (Generic.ssh2_channel_get_exit_signal engineOk 7 []).1
        = (engineOk.channel_get_exit_signal [] 7).exitsignal
    ∧ (Generic.ssh2_channel_get_exit_signal engineNoSignal 7 []).1 = NULL :=
  ⟨(exit_signal_null_unless_success (engineStatus (-7)) 7 []).1 (by decide),
   (exit_signal_null_unless_success (engineStatus LIBSSH2_ERROR_EAGAIN) 7 []).2.1 rfl,
   (exit_signal_null_unless_success engineOk 7 []).2.2.1 rfl,
   (exit_signal_null_unless_success engineNoSignal 7 []).2.2.2 rfl rfl⟩

/-- Each `ssh2_channel_free` of a non-null channel adds one engine free. -/
theorem freeTimes_count (E : Engine) (channel : Ptr) (h : channel ≠ NULL) (k : Nat) :
    ∀ tr : List Call,
      List.count (Call.channel_free channel) (Generic.freeTimes E channel k tr)
        = List.count (Call.channel_free channel) tr + k := by
  induction k with
  | zero => intro tr; simp [Generic.freeTimes]
  | succ n ih =>
    intro tr
    simp only [Generic.freeTimes]
    rw [ih]
    simp [Generic.ssh2_channel_free, h]
    omega

/-- Freeing the null channel any number of times leaves the trace as it was. -/
theorem freeTimes_null (E : Engine) (k : Nat) :
    ∀ tr : List Call, Generic.freeTimes E NULL k tr = tr := by
  induction k with
  | zero => intro tr; rfl
  | succ n ih =>
    intro tr
    simp only [Generic.freeTimes]
    rw [ih]
    simp [Generic.ssh2_channel_free]

/-- C7 refuted: a second `ssh2_channel_free(7)` after a first one returns
the same (void) result and forwards a second free call to the engine. -/
theorem double_free_is_forwarded :
    Generic.ssh2_channel_free engineOk 7 (Generic.ssh2_channel_free engineOk 7 []).2
        = ((Generic.ssh2_channel_free engineOk 7 []).1,
            [Call.channel_free 7, Call.channel_free 7])
    ∧ WebSocket.ssh2_channel_free engineOk 7 (WebSocket.ssh2_channel_free engineOk 7 []).2
        = ((WebSocket.ssh2_channel_free engineOk 7 []).1,
            [Call.channel_free 7, Call.channel_free 7])
    ∧ List.count (Call.channel_free 7) (Generic.freeTimes engineOk 7 2 []) = 2 := by
  refine ⟨rfl, rfl, ?_⟩
  rw [freeTimes_count engineOk 7 (by decide) 2 []]
  simp

/-- C7 as amended: every `ssh2_channel_free(c)` with non-null `c` forwards
exactly one free call to the engine, whatever calls came before and whatever
the engine answers, and returns the same (void) result; so `k` host calls in
a row give `k` engine frees of `c`.  For the null channel
`ssh2_channel_free` makes no engine call: the trace is left as it was. -/
theorem channel_free_always_forwarded (E : Engine) (channel : Ptr) (tr : List Call) :
    (channel ≠ NULL →
      Generic.ssh2_channel_free E channel tr = ((), tr ++ [Call.channel_free channel])
      ∧ WebSocket.ssh2_channel_free E channel tr
          = ((), tr ++ [Call.channel_free channel])
      ∧ ∀ k : Nat,
          List.count (Call.channel_free channel) (Generic.freeTimes E channel k tr)
            = List.count (Call.channel_free channel) tr + k)
    ∧ (channel = NULL →
      Generic.ssh2_channel_free E channel tr = ((), tr)
      ∧ WebSocket.ssh2_channel_free E channel tr = ((), tr)
      ∧ ∀ k : Nat, Generic.freeTimes E channel k tr = tr) := by
  constructor
  · intro h
    refine ⟨?_, ?_, fun k => freeTimes_count E channel h k tr⟩
    · simp [Generic.ssh2_channel_free, h]
    · simp [WebSocket.ssh2_channel_free, h]
  · intro h
    subst h
    refine ⟨?_, ?_, fun k => freeTimes_null E k tr⟩
    · simp [Generic.ssh2_channel_free]
    · simp [WebSocket.ssh2_channel_free]

/-- C7 as amended, at concrete inputs: channel `7`, and the null channel, on
a fresh trace. -/
theorem channel_free_always_forwarded_witness :
    (Generic.ssh2_channel_free engineOk 7 [] = ((), [] ++ [Call.channel_free 7])
      ∧ WebSocket.ssh2_channel_free engineOk 7 [] = ((), [] ++ [Call.channel_free 7])
      ∧ ∀ k : Nat,
          List.count (Call.channel_free 7) (Generic.freeTimes engineOk 7 k [])
            = List.count (Call.channel_free 7) [] + k)
    ∧ (Generic.ssh2_channel_free engineOk NULL [] = ((), [])
      ∧ WebSocket.ssh2_channel_free engineOk NULL [] = ((), [])
      ∧ ∀ k : Nat, Generic.freeTimes engineOk NULL k [] = []) :=
  ⟨(channel_free_always_forwarded engineOk 7 []).1 (by decide),
   (channel_free_always_forwarded engineOk NULL []).2 rfl⟩

/-- C8 refuted: in the generic variant two bridge calls made for different
sessions (sockets `1` and `2`, abstracts `100` and `200`) with the same
buffer and length invoke the hook with the same arguments, `buffer, length`,
and give the same result. -/
theorem generic_bridge_ignores_session :
    Generic.custom_send hooksInstalled 1 1024 16 0 100 []
        = Generic.custom_send hooksInstalled 2 1024 16 0 200 []
    ∧ Generic.custom_recv hooksInstalled 1 1024 16 0 100 []
        = Generic.custom_recv hooksInstalled 2 1024 16 0 200 []
    ∧ (Generic.custom_send hooksInstalled 1 1024 16 0 100 []).2
        = [HookCall.customSend [toInt32 (1024 : Nat), toInt32 (16 : Nat)]]
    ∧ (Generic.custom_recv hooksInstalled 2 1024 16 0 200 []).2
        = [HookCall.customRecv [toInt32 (1024 : Nat), toInt32 (16 : Nat)]] := by
  refine ⟨rfl, rfl, rfl, rfl⟩

/-- C8 as amended: the generic variant invokes the hooks with buffer and
length only, so two calls that differ only in socket, flags and abstract
invoke the hook identically; the WebSocket variant also passes the socket, so
with a hook installed its invocations differ when the sockets differ, and
they never depend on flags or abstract; `ssh2_session_handshake_custom`
gives the engine the socket `1` for every session. -/
theorem bridge_hook_arguments (M : Module) (E : Engine) (session : Ptr)
    (socket socket2 : Int) (buffer : Ptr) (length : Nat) (flags flags2 : Int)
    (abstract abstract2 : Ptr) (hs : List HookCall) (tr : List Call) :
    Generic.custom_send M socket buffer length flags abstract hs
        = Generic.custom_send M socket2 buffer length flags2 abstract2 hs
    ∧ Generic.custom_recv M socket buffer length flags abstract hs
        = Generic.custom_recv M socket2 buffer length flags2 abstract2 hs
    ∧ WebSocket.custom_send M socket buffer length flags abstract hs
        = WebSocket.custom_send M socket buffer length flags2 abstract2 hs
    ∧ WebSocket.custom_recv M socket buffer length flags abstract hs
        = WebSocket.custom_recv M socket buffer length flags2 abstract2 hs
    ∧ (socket ≠ socket2 → M.customSend ≠ none →
        (WebSocket.custom_send M socket buffer length flags abstract hs).2
          ≠ (WebSocket.custom_send M socket2 buffer length flags2 abstract2 hs).2)
    ∧ (socket ≠ socket2 → M.customRecv ≠ none →
        (WebSocket.custom_recv M socket buffer length flags abstract hs).2
          ≠ (WebSocket.custom_recv M socket2 buffer length flags2 abstract2 hs).2)
    ∧ (Generic.ssh2_session_handshake_custom E session tr).2
        = tr ++ [Call.session_handshake session 1]
    ∧ (WebSocket.ssh2_session_handshake_custom E session tr).2
        = tr ++ [Call.session_handshake session 1] := by
  refine ⟨rfl, rfl, rfl, rfl, ?_, ?_, rfl, rfl⟩
  · intro hne hM
    cases hf : M.customSend with
    | none => exact absurd hf hM
    | some f => simp [WebSocket.custom_send, hf, hne]
  · intro hne hM
    cases hf : M.customRecv with
    | none => exact absurd hf hM
    | some f => simp [WebSocket.custom_recv, hf, hne]

/-- C8 as amended, at a concrete input: sockets `1` and `2` with both hooks
installed. -/
theorem bridge_hook_arguments_witness :
    (WebSocket.custom_send hooksInstalled 1 1024 16 0 100 []).2
        ≠ (WebSocket.custom_send hooksInstalled 2 1024 16 0 200 []).2
    ∧ (WebSocket.custom_recv hooksInstalled 1 1024 16 0 100 []).2
        ≠ (WebSocket.custom_recv hooksInstalled 2 1024 16 0 200 []).2 :=
  ⟨(bridge_hook_arguments hooksInstalled engineOk 7 1 2 1024 16 0 0 100 200 [] []).2.2.2.2.1
      (by decide) (by simp [hooksInstalled]),
   (bridge_hook_arguments hooksInstalled engineOk 7 1 2 1024 16 0 0 100 200 [] []).2.2.2.2.2.1
      (by decide) (by simp [hooksInstalled])⟩

/-- C9: when the engine's `session_init` answers a non-null session,
`ssh2_session_init_custom` sets `custom_send` as the send callback and then
`custom_recv` as the receive callback on that session, makes no other engine
call, and returns that session; when the engine answers null it returns null
after `session_init` alone, with no callback-set call. -/
theorem session_init_custom_attaches_bridge (E : Engine) (tr : List Call) :
    (E.session_init tr ≠ NULL →
      WebSocket.ssh2_session_init_custom E tr
        = (E.session_init tr,
            tr ++ [Call.session_init,
              Call.session_callback_set (E.session_init tr) LIBSSH2_CALLBACK_SEND
                Callback.custom_send,
              Call.session_callback_set (E.session_init tr) LIBSSH2_CALLBACK_RECV
                Callback.custom_recv]))
    ∧ (E.session_init tr = NULL →
      WebSocket.ssh2_session_init_custom E tr = (NULL, tr ++ [Call.session_init])) := by
  constructor
  · intro h
    simp [WebSocket.ssh2_session_init_custom, h]
  · intro h
    simp [WebSocket.ssh2_session_init_custom, h]

/-- C9 at concrete inputs: an engine that hands out session `1`, and one
that answers null. -/
theorem session_init_custom_attaches_bridge_witness :
    WebSocket.ssh2_session_init_custom engineOk []
        = (engineOk.session_init [],
            [] ++ [Call.session_init,
              Call.session_callback_set (engineOk.session_init []) LIBSSH2_CALLBACK_SEND
                Callback.custom_send,
              Call.session_callback_set (engineOk.session_init []) LIBSSH2_CALLBACK_RECV
                Callback.custom_recv])
    ∧ WebSocket.ssh2_session_init_custom engineNoSession []
        = (NULL, [] ++ [Call.session_init]) :=
  ⟨(session_init_custom_attaches_bridge engineOk []).1 (by decide),
   (session_init_custom_attaches_bridge engineNoSession []).2 rfl⟩

/-- C10: `ssh2_session_handshake_custom` (both variants),
`ssh2_userauth_password`, `ssh2_channel_close` (both variants),
`ssh2_channel_read` and `ssh2_channel_write` each make one engine call and
return exactly the result `r` the engine gave, be it a success value, the
would-block code or a failure code; for read and write `r` is an `ssize_t`,
which on this target has the range of `int`. -/
theorem status_operations_pass_result_through (E : Engine) (session channel : Ptr)
    (username password buf : Ptr) (buflen : Nat) (tr : List Call) (r : Int) :
    (E.session_handshake tr session 1 = r →
      Generic.ssh2_session_handshake_custom E session tr
          = (r, tr ++ [Call.session_handshake session 1])
      ∧ WebSocket.ssh2_session_handshake_custom E session tr
          = (r, tr ++ [Call.session_handshake session 1]))
    ∧ (E.userauth_password tr session username password = r →
      Generic.ssh2_userauth_password E session username password tr
          = (r, tr ++ [Call.userauth_password session username password]))
    ∧ (E.channel_close tr channel = r →
      Generic.ssh2_channel_close E channel tr = (r, tr ++ [Call.channel_close channel])
      ∧ WebSocket.ssh2_channel_close E channel tr
          = (r, tr ++ [Call.channel_close channel]))
    ∧ (E.channel_read tr channel buf buflen = r → -2 ^ 31 ≤ r → r < 2 ^ 31 →
      Generic.ssh2_channel_read E channel buf buflen tr
          = (r, tr ++ [Call.channel_read channel buf buflen]))
    ∧ (E.channel_write tr channel buf buflen = r → -2 ^ 31 ≤ r → r < 2 ^ 31 →
      Generic.ssh2_channel_write E channel buf buflen tr
          = (r, tr ++ [Call.channel_write channel buf buflen])) := by
  refine ⟨?_, ?_, ?_, ?_, ?_⟩
  · intro h
    simp [Generic.ssh2_session_handshake_custom, WebSocket.ssh2_session_handshake_custom, h]
  · intro h
    simp [Generic.ssh2_userauth_password, h]
  · intro h
    simp [Generic.ssh2_channel_close, WebSocket.ssh2_channel_close, h]
  · intro h h1 h2
    simp [Generic.ssh2_channel_read, h, toInt32_eq_self r h1 h2]
  · intro h h1 h2
    simp [Generic.ssh2_channel_write, h, toInt32_eq_self r h1 h2]

/-- C10 at a concrete input: an engine whose calls all answer would-block. -/
theorem status_operations_pass_result_through_witness :
    (Generic.ssh2_session_handshake_custom (engineStatus LIBSSH2_ERROR_EAGAIN) 7 []
          = (LIBSSH2_ERROR_EAGAIN, [] ++ [Call.session_handshake 7 1])
      ∧ WebSocket.ssh2_session_handshake_custom (engineStatus LIBSSH2_ERROR_EAGAIN) 7 []
          = (LIBSSH2_ERROR_EAGAIN, [] ++ [Call.session_handshake 7 1]))
    ∧ Generic.ssh2_userauth_password (engineStatus LIBSSH2_ERROR_EAGAIN) 7 200 300 []
          = (LIBSSH2_ERROR_EAGAIN, [] ++ [Call.userauth_password 7 200 300])
    ∧ (Generic.ssh2_channel_close (engineStatus LIBSSH2_ERROR_EAGAIN) 9 []
          = (LIBSSH2_ERROR_EAGAIN, [] ++ [Call.channel_close 9])
      ∧ WebSocket.ssh2_channel_close (engineStatus LIBSSH2_ERROR_EAGAIN) 9 []
          = (LIBSSH2_ERROR_EAGAIN, [] ++ [Call.channel_close 9]))
    ∧ Generic.ssh2_channel_read (engineStatus LIBSSH2_ERROR_EAGAIN) 9 1024 16 []
          = (LIBSSH2_ERROR_EAGAIN, [] ++ [Call.channel_read 9 1024 16])
    ∧ Generic.ssh2_channel_write (engineStatus LIBSSH2_ERROR_EAGAIN) 9 1024 16 []
          = (LIBSSH2_ERROR_EAGAIN, [] ++ [Call.channel_write 9 1024 16]) :=
  have w := status_operations_pass_result_through (engineStatus LIBSSH2_ERROR_EAGAIN)
    7 9 200 300 1024 16 [] LIBSSH2_ERROR_EAGAIN
  ⟨w.1 rfl, w.2.1 rfl, w.2.2.1 rfl,
   w.2.2.2.1 rfl (by decide) (by decide), w.2.2.2.2 rfl (by decide) (by decide)⟩

/-- Appending one call to a trace applies `slotStep` once to the slot. -/
theorem callbackSlot_append_one (session : Ptr) (cbtype : Int) (tr : List Call)
    (c : Call) :
    callbackSlot session cbtype (tr ++ [c])
      = slotStep session cbtype (callbackSlot session cbtype tr) c := by
  simp [callbackSlot, List.foldl_append]

/-- C11: for every session and every `cbtype`,
`ssh2_session_callback_set_custom` asks the engine to store `custom_send` in
the send slot iff `cbtype = LIBSSH2_CALLBACK_SEND` and `custom_recv` in the
receive slot iff `cbtype = LIBSSH2_CALLBACK_RECV`, with exactly one engine
call in each of these two cases; for every other `cbtype` it makes no engine
call; and every callback slot other than the requested one, of this or any
other session, is left as it was (all slots, for another `cbtype`). -/
theorem callback_set_custom_touches_requested_slot (E : Engine) (session : Ptr)
    (cbtype : Int) (tr : List Call) :
    ((Generic.ssh2_session_callback_set_custom E session cbtype tr).2
        = tr ++ [Call.session_callback_set2 session LIBSSH2_CALLBACK_SEND
                  Callback.custom_send]
      ↔ cbtype = LIBSSH2_CALLBACK_SEND)
    ∧ ((Generic.ssh2_session_callback_set_custom E session cbtype tr).2
        = tr ++ [Call.session_callback_set2 session LIBSSH2_CALLBACK_RECV
                  Callback.custom_recv]
      ↔ cbtype = LIBSSH2_CALLBACK_RECV)
    ∧ (cbtype = LIBSSH2_CALLBACK_SEND ∨ cbtype = LIBSSH2_CALLBACK_RECV →
        (Generic.ssh2_session_callback_set_custom E session cbtype tr).2.length
          = tr.length + 1)
    ∧ (cbtype ≠ LIBSSH2_CALLBACK_SEND → cbtype ≠ LIBSSH2_CALLBACK_RECV →
        (Generic.ssh2_session_callback_set_custom E session cbtype tr).2 = tr)
    ∧ (cbtype = LIBSSH2_CALLBACK_SEND →
        callbackSlot session LIBSSH2_CALLBACK_SEND
          (Generic.ssh2_session_callback_set_custom E session cbtype tr).2
          = some Callback.custom_send)
    ∧ (cbtype = LIBSSH2_CALLBACK_RECV →
        callbackSlot session LIBSSH2_CALLBACK_RECV
          (Generic.ssh2_session_callback_set_custom E session cbtype tr).2
          = some Callback.custom_recv)
    ∧ (∀ (s : Ptr) (t : Int), s ≠ session ∨ t ≠ cbtype →
        callbackSlot s t (Generic.ssh2_session_callback_set_custom E session cbtype tr).2
          = callbackSlot s t tr)
    ∧ (cbtype ≠ LIBSSH2_CALLBACK_SEND → cbtype ≠ LIBSSH2_CALLBACK_RECV →
        ∀ (s : Ptr) (t : Int),
          callbackSlot s t (Generic.ssh2_session_callback_set_custom E session cbtype tr).2
            = callbackSlot s t tr) := by
  have hne : LIBSSH2_CALLBACK_RECV ≠ LIBSSH2_CALLBACK_SEND := by decide
  by_cases hs : cbtype = LIBSSH2_CALLBACK_SEND
  · subst hs
    have hrun : (Generic.ssh2_session_callback_set_custom E session
        LIBSSH2_CALLBACK_SEND tr).2
        = tr ++ [Call.session_callback_set2 session LIBSSH2_CALLBACK_SEND
                  Callback.custom_send] := by
      simp [Generic.ssh2_session_callback_set_custom]
    rw [hrun]
    refine ⟨by simp, ?_, ?_, ?_, ?_, ?_, ?_, ?_⟩
    · simp [hne.symm]
    · intro _; simp
    · intro h; exact absurd rfl h
    · intro _; simp [callbackSlot_append_one, slotStep]
    · intro h; exact absurd h.symm hne
    · intro s t hst
      rw [callbackSlot_append_one]
      rcases hst with h | h
      · simp [slotStep, Ne.symm h]
      · simp [slotStep, Ne.symm h]
    · intro h; exact absurd rfl h
  · by_cases hr : cbtype = LIBSSH2_CALLBACK_RECV
    · subst hr
      have hrun : (Generic.ssh2_session_callback_set_custom E session
          LIBSSH2_CALLBACK_RECV tr).2
          = tr ++ [Call.session_callback_set2 session LIBSSH2_CALLBACK_RECV
                    Callback.custom_recv] := by
        simp [Generic.ssh2_session_callback_set_custom, hne]
      rw [hrun]
      refine ⟨?_, by simp, ?_, ?_, ?_, ?_, ?_, ?_⟩
      · simp [hne]
      · intro _; simp
      · intro _ h; exact absurd rfl h
      · intro h; exact absurd h hne
      · intro _; simp [callbackSlot_append_one, slotStep]
      · intro s t hst
        rw [callbackSlot_append_one]
        rcases hst with h | h
        · simp [slotStep, Ne.symm h]
        · simp [slotStep, Ne.symm h]
      · intro _ h; exact absurd rfl h
    · have hrun : (Generic.ssh2_session_callback_set_custom E session cbtype tr).2
          = tr := by
        simp [Generic.ssh2_session_callback_set_custom, hs, hr]
      rw [hrun]
      refine ⟨?_, ?_, ?_, ?_, ?_, ?_, ?_, ?_⟩
      · simp [hs]
      · simp [hr]
      · rintro (h | h)
        · exact absurd h hs
        · exact absurd h hr
      · intro _ _; rfl
      · intro h; exact absurd h hs
      · intro h; exact absurd h hr
      · intro _ _ _; rfl
      · intro _ _ _ _; rfl

/-- C11 at concrete inputs: session `7` with `cbtype` the send slot, the
receive slot, and the slot `0`, which is neither. -/
theorem callback_set_custom_touches_requested_slot_witness :
    (Generic.ssh2_session_callback_set_custom engineOk 7 LIBSSH2_CALLBACK_SEND []).2
        = [] ++ [Call.session_callback_set2 7 LIBSSH2_CALLBACK_SEND Callback.custom_send]
    ∧ (Generic.ssh2_session_callback_set_custom engineOk 7 LIBSSH2_CALLBACK_RECV []).2
        = [] ++ [Call.session_callback_set2 7 LIBSSH2_CALLBACK_RECV Callback.custom_recv]
    ∧ (Generic.ssh2_session_callback_set_custom engineOk 7 LIBSSH2_CALLBACK_SEND []).2.length
        = ([] : List Call).length + 1
    ∧ (Generic.ssh2_session_callback_set_custom engineOk 7 0 []).2 = []
    ∧ callbackSlot 7 LIBSSH2_CALLBACK_SEND
        (Generic.ssh2_session_callback_set_custom engineOk 7 LIBSSH2_CALLBACK_SEND []).2
        = some Callback.custom_send
    ∧ callbackSlot 7 LIBSSH2_CALLBACK_RECV
        (Generic.ssh2_session_callback_set_custom engineOk 7 LIBSSH2_CALLBACK_RECV []).2
        = some Callback.custom_recv
    ∧ callbackSlot 7 LIBSSH2_CALLBACK_RECV
        (Generic.ssh2_session_callback_set_custom engineOk 7 LIBSSH2_CALLBACK_SEND []).2
        = callbackSlot 7 LIBSSH2_CALLBACK_RECV []
    ∧ (∀ (s : Ptr) (t : Int),
        callbackSlot s t (Generic.ssh2_session_callback_set_custom engineOk 7 0 []).2
          = callbackSlot s t []) :=
  have ws := callback_set_custom_touches_requested_slot engineOk 7 LIBSSH2_CALLBACK_SEND []
  have wr := callback_set_custom_touches_requested_slot engineOk 7 LIBSSH2_CALLBACK_RECV []
  have wo := callback_set_custom_touches_requested_slot engineOk 7 0 []
  ⟨ws.1.2 rfl, wr.2.1.2 rfl, ws.2.2.1 (Or.inl rfl), wo.2.2.2.1 (by decide) (by decide),
   ws.2.2.2.2.1 rfl, wr.2.2.2.2.2.1 rfl,
   ws.2.2.2.2.2.2.1 7 LIBSSH2_CALLBACK_RECV (Or.inr (by decide)),
   wo.2.2.2.2.2.2.2 (by decide) (by decide)⟩

end Libssh2js
